import Mathlib

/-!
Shallow embedding of the core logic of the Nexu location-based group-chat
client: the real-time message synchronizer (optimistic send, server-echo
reconciliation in `useRealTimeMessages.ts` / `ChatScreen.tsx`), the message
send service (`chatMessages.ts`), and the nearby-group discovery pipeline
(`chatGroups.ts`).  Timestamps are modelled as natural numbers (the code
stores ISO strings whose order agrees with the instants they denote), and
JavaScript `null`/`undefined` fields are modelled with `Option`.
-/

namespace Nexu

/-- The TS union type of message senders: `'user' | 'anonymous'`. -/
inductive SenderType where
  | user
  | anonymous
deriving DecidableEq, Repr

/-- A well-typed message row, after the `Message` interface in
`src/types/app.ts`.  `sent_at` is the timestamp, `poll_data` is kept
abstract as an optional string. -/
structure Message where
  id : String
  chat_group_id : String
  content : String
  sent_at : Nat
  sender_type : SenderType
  user_id : Option String
  anonymous_user_id : Option String
  display_name : String
  avatar_color : Option String
  message_type : String
  poll_data : Option String
deriving DecidableEq, Repr

/-- An in-memory list entry of the hook: a message plus the local
`isOptimistic` flag (absent in TS means `false`). -/
structure OptimisticMessage extends Message where
  isOptimistic : Bool := false
deriving DecidableEq, Repr

/-- A raw row as delivered by the realtime channel or the REST query,
before validation: every field may be `null`/`undefined`. -/
structure RawMessage where
  id : Option String
  chat_group_id : Option String
  content : Option String
  sent_at : Option Nat
  sender_type : Option String
  user_id : Option String
  anonymous_user_id : Option String
  display_name : Option String
  avatar_color : Option String
  message_type : Option String
  poll_data : Option String
deriving DecidableEq, Repr

/-- `validateMessage` of `useRealTimeMessages.ts`: the required fields must
be present and non-null, and `sender_type` must be `'user'` or
`'anonymous'`. -/
def validateMessage (m : RawMessage) : Bool :=
  m.id.isSome && m.chat_group_id.isSome && m.content.isSome && m.sent_at.isSome
    && m.sender_type.isSome && m.display_name.isSome
    && (m.sender_type == some "user" || m.sender_type == some "anonymous")

/-- Read a validated raw row into the typed model (defaults are only ever
used on fields `validateMessage` has already checked to be present). -/
def parseMessage (m : RawMessage) : Message :=
  { id := m.id.getD ""
    chat_group_id := m.chat_group_id.getD ""
    content := m.content.getD ""
    sent_at := m.sent_at.getD 0
    sender_type := if m.sender_type == some "user" then .user else .anonymous
    user_id := m.user_id
    anonymous_user_id := m.anonymous_user_id
    display_name := m.display_name.getD ""
    avatar_color := m.avatar_color
    message_type := m.message_type.getD "text"
    poll_data := m.poll_data }

/-- The state update applied by the realtime INSERT callback of
`setupRealTimeSubscription` (`useRealTimeMessages.ts`, lines 154-166):
if some entry already has the incoming id, every such entry is replaced in
place by the server row with the optimistic flag cleared; otherwise the
server row is appended at the end. -/
def applyServerInsert (prev : List OptimisticMessage) (newMessage : Message) :
    List OptimisticMessage :=
  if prev.any (fun msg => msg.id == newMessage.id) then
    prev.map (fun msg =>
      if msg.id = newMessage.id then { toMessage := newMessage, isOptimistic := false }
      else msg)
  else
    prev ++ [{ toMessage := newMessage, isOptimistic := false }]

/-- The full realtime INSERT handler: validate the pushed row, then apply
the append-or-replace update; invalid rows are ignored. -/
def processRealtimeInsert (prev : List OptimisticMessage) (payloadNew : RawMessage) :
    List OptimisticMessage :=
  if validateMessage payloadNew then applyServerInsert prev (parseMessage payloadNew)
  else prev

/-- JavaScript `x || dflt` on an optional string (empty string is falsy). -/
def jsOr (o : Option String) (dflt : String) : String :=
  match o with
  | some s => if s = "" then dflt else s
  | none => dflt

/-- JavaScript `x || null` on an optional string (empty string is falsy). -/
def jsOrNull (o : Option String) : Option String :=
  match o with
  | some s => if s = "" then none else some s
  | none => none

/-- The `Partial<Message>` draft passed to `addOptimisticMessage`. -/
structure MessageDraft where
  content : Option String := none
  sender_type : Option SenderType := none
  user_id : Option String := none
  anonymous_user_id : Option String := none
  display_name : Option String := none
  avatar_color : Option String := none
deriving DecidableEq, Repr

/-- The temporary id minted by `addOptimisticMessage`:
`temp_${Date.now()}_${randomSuffix}`. -/
def mkTempId (now : Nat) (rand : String) : String :=
  "temp_" ++ toString now ++ "_" ++ rand

/-- The optimistic entry built by `addOptimisticMessage` from a draft,
with the defaulting (`|| ''`, `|| null`, `|| 'Unknown'`, `|| '#666'`,
`|| 'anonymous'`) of `useRealTimeMessages.ts` lines 186-199. -/
def optimisticEntry (chatGroupId : String) (now : Nat) (rand : String)
    (messageData : MessageDraft) : OptimisticMessage :=
  { id := mkTempId now rand
    chat_group_id := chatGroupId
    content := jsOr messageData.content ""
    sent_at := now
    sender_type := messageData.sender_type.getD .anonymous
    user_id := jsOrNull messageData.user_id
    anonymous_user_id := jsOrNull messageData.anonymous_user_id
    display_name := jsOr messageData.display_name "Unknown"
    avatar_color := some (jsOr messageData.avatar_color "#666")
    message_type := "text"
    poll_data := none
    isOptimistic := true }

/-- `addOptimisticMessage` of `useRealTimeMessages.ts` (lines 183-205):
synthesize a temporary id, append the draft as an optimistic entry, and
return the temporary id together with the new list.  `now` is the value of
`Date.now()` and `rand` the random suffix. -/
def addOptimisticMessage (prev : List OptimisticMessage) (chatGroupId : String)
    (now : Nat) (rand : String) (messageData : MessageDraft) :
    String × List OptimisticMessage :=
  (mkTempId now rand, prev ++ [optimisticEntry chatGroupId now rand messageData])

/-- `removeOptimisticMessage` (lines 208-211): drop every entry whose id is
the temporary id. -/
def removeOptimisticMessage (prev : List OptimisticMessage) (tempId : String) :
    List OptimisticMessage :=
  prev.filter (fun msg => msg.id != tempId)

/-- `replaceOptimisticMessage` (lines 214-219): map the entry matched by the
temporary id to the server-confirmed message with the optimistic flag
cleared. -/
def replaceOptimisticMessage (prev : List OptimisticMessage) (tempId : String)
    (realMessage : Message) : List OptimisticMessage :=
  prev.map (fun msg =>
    if msg.id = tempId then { toMessage := realMessage, isOptimistic := false }
    else msg)

/-- How the `sendMessage` call awaited by `handleSendMessage` settles, as
seen by the chat screen: a success carrying the confirmed message, a failure
result (`result.success` false or `result.message` absent), or a rejected
promise. -/
inductive SendOutcome where
  | success (message : Message)
  | failed (error : String)
  | threw (error : String)
deriving DecidableEq, Repr

/-- The settlement half of `handleSendMessage` (`ChatScreen.tsx`, lines
143-164): on success, replace the optimistic entry; on a failure result,
remove it, throw, and remove again in the catch block; on a rejection,
remove it once in the catch block. -/
def handleSendMessageSettle (messages : List OptimisticMessage) (tempId : String)
    (outcome : SendOutcome) : List OptimisticMessage :=
  match outcome with
  | .success m => replaceOptimisticMessage messages tempId m
  | .failed _ => removeOptimisticMessage (removeOptimisticMessage messages tempId) tempId
  | .threw _ => removeOptimisticMessage messages tempId

/-- The whole optimistic send path of `handleSendMessage`: append the
optimistic entry, then settle it according to the outcome of the send
call. -/
def handleSendMessageRun (prev : List OptimisticMessage) (chatGroupId : String)
    (now : Nat) (rand : String) (draft : MessageDraft) (outcome : SendOutcome) :
    List OptimisticMessage :=
  let r := addOptimisticMessage prev chatGroupId now rand draft
  handleSendMessageSettle r.2 r.1 outcome

/-- The draft built inline by `handleSendMessage` (`ChatScreen.tsx`, lines
134-141) from the screen's auth state. -/
def chatScreenDraft (isAuthenticated : Bool) (currentUserId currentUserName : String)
    (content : String) : MessageDraft :=
  { content := some content
    sender_type := some (if isAuthenticated then .user else .anonymous)
    user_id := if isAuthenticated then some currentUserId else none
    anonymous_user_id := if isAuthenticated then none else some currentUserId
    display_name := some currentUserName
    avatar_color := none }

/- Helper lemmas about the append-or-replace update. -/

lemma any_id_iff (prev : List OptimisticMessage) (i : String) :
    prev.any (fun msg => msg.id == i) = true ↔ i ∈ prev.map (fun x => x.id) := by
  simp [List.any_eq_true, List.mem_map]

lemma applyServerInsert_of_mem (prev : List OptimisticMessage) (m : Message)
    (h : m.id ∈ prev.map (fun x => x.id)) :
    applyServerInsert prev m
      = prev.map (fun msg =>
          if msg.id = m.id then { toMessage := m, isOptimistic := false } else msg) := by
  unfold applyServerInsert
  rw [if_pos ((any_id_iff prev m.id).mpr h)]

lemma applyServerInsert_of_not_mem (prev : List OptimisticMessage) (m : Message)
    (h : m.id ∉ prev.map (fun x => x.id)) :
    applyServerInsert prev m = prev ++ [{ toMessage := m, isOptimistic := false }] := by
  unfold applyServerInsert
  rw [if_neg]
  intro hany
  exact h ((any_id_iff prev m.id).mp hany)

lemma applyServerInsert_ids_of_mem (prev : List OptimisticMessage) (m : Message)
    (h : m.id ∈ prev.map (fun x => x.id)) :
    (applyServerInsert prev m).map (fun x => x.id) = prev.map (fun x => x.id) := by
  rw [applyServerInsert_of_mem prev m h, List.map_map]
  apply List.map_congr_left
  intro a _
  by_cases hid : a.id = m.id
  · simp [Function.comp, hid]
  · simp [Function.comp, hid]

lemma applyServerInsert_nodup (prev : List OptimisticMessage) (m : Message)
    (h : (prev.map (fun x => x.id)).Nodup) :
    ((applyServerInsert prev m).map (fun x => x.id)).Nodup := by
  by_cases hmem : m.id ∈ prev.map (fun x => x.id)
  · rw [applyServerInsert_ids_of_mem prev m hmem]
    exact h
  · rw [applyServerInsert_of_not_mem prev m hmem]
    simp [List.nodup_append, h, hmem]

lemma applyServerInsert_idem (prev : List OptimisticMessage) (m : Message) :
    applyServerInsert (applyServerInsert prev m) m = applyServerInsert prev m := by
  by_cases hmem : m.id ∈ prev.map (fun x => x.id)
  · have hids := applyServerInsert_ids_of_mem prev m hmem
    rw [applyServerInsert_of_mem _ m (by rw [hids]; exact hmem),
        applyServerInsert_of_mem prev m hmem, List.map_map]
    apply List.map_congr_left
    intro a _
    by_cases hid : a.id = m.id
    · simp [Function.comp, hid]
    · simp [Function.comp, hid]
  · rw [applyServerInsert_of_not_mem prev m hmem]
    have hmem2 : m.id ∈ (prev ++ [({ toMessage := m, isOptimistic := false } : OptimisticMessage)]).map
        (fun x => x.id) := by
      simp
    rw [applyServerInsert_of_mem _ m hmem2, List.map_append]
    congr 1
    · have hfix : ∀ a ∈ prev,
          (if a.id = m.id then ({ toMessage := m, isOptimistic := false } : OptimisticMessage)
           else a) = a := by
        intro a ha
        have hne : a.id ≠ m.id := fun hc => hmem (List.mem_map.mpr ⟨a, ha, hc⟩)
        simp [hne]
      rw [List.map_congr_left hfix]
      exact List.map_id' prev
    · simp

lemma applyServerInsert_entry (prev : List OptimisticMessage) (m : Message) :
    ∀ x ∈ applyServerInsert prev m, x.id = m.id →
      x = { toMessage := m, isOptimistic := false } := by
  intro x hx hid
  by_cases hmem : m.id ∈ prev.map (fun y => y.id)
  · rw [applyServerInsert_of_mem prev m hmem] at hx
    obtain ⟨a, _, rfl⟩ := List.mem_map.mp hx
    by_cases h2 : a.id = m.id
    · simp [h2]
    · simp only [if_neg h2] at hid ⊢
      exact absurd hid h2
  · rw [applyServerInsert_of_not_mem prev m hmem] at hx
    rcases List.mem_append.mp hx with h | h
    · exact absurd (List.mem_map.mpr ⟨x, h, hid⟩) hmem
    · simpa using h

lemma foldl_applyServerInsert_nodup (events : List Message)
    (prev : List OptimisticMessage) (h : (prev.map (fun x => x.id)).Nodup) :
    ((events.foldl applyServerInsert prev).map (fun x => x.id)).Nodup := by
  induction events generalizing prev with
  | nil => exact h
  | cons e rest ih => exact ih (applyServerInsert prev e) (applyServerInsert_nodup prev e h)

/-- C1: applying a server insert event whose id already exists in the list
replaces that entry in place (the projected id sequence, hence every
position, is unchanged, and the matched entry becomes the server row with
the optimistic flag cleared), while an event with a new id is appended at
the end; consequently the id list stays duplicate-free across any sequence
of events, and applying the identical event twice yields the same list as
applying it once. -/
theorem applyServerInsert_append_or_replace (prev : List OptimisticMessage) (m : Message) :
    (m.id ∈ prev.map (fun x => x.id) →
        (applyServerInsert prev m).map (fun x => x.id) = prev.map (fun x => x.id))
    ∧ (∀ x ∈ applyServerInsert prev m, x.id = m.id →
        x = { toMessage := m, isOptimistic := false })
    ∧ (m.id ∉ prev.map (fun x => x.id) →
        applyServerInsert prev m = prev ++ [{ toMessage := m, isOptimistic := false }])
    ∧ (∀ events : List Message, (prev.map (fun x => x.id)).Nodup →
        ((events.foldl applyServerInsert prev).map (fun x => x.id)).Nodup)
    ∧ applyServerInsert (applyServerInsert prev m) m = applyServerInsert prev m := by
  exact ⟨applyServerInsert_ids_of_mem prev m, applyServerInsert_entry prev m,
    applyServerInsert_of_not_mem prev m,
    fun events h => foldl_applyServerInsert_nodup events prev h,
    applyServerInsert_idem prev m⟩

/-- The spec's concrete reconciliation example: message `a` at time 1. -/
def msgA : Message :=
  { id := "a", chat_group_id := "g1", content := "hello", sent_at := 1
    sender_type := .anonymous, user_id := none, anonymous_user_id := some "anon1"
    display_name := "Red Fox", avatar_color := some "#666"
    message_type := "text", poll_data := none }

/-- The spec's concrete reconciliation example: message `b` at time 2. -/
def msgB : Message :=
  { id := "b", chat_group_id := "g1", content := "hey", sent_at := 2
    sender_type := .anonymous, user_id := none, anonymous_user_id := some "anon2"
    display_name := "Blue Owl", avatar_color := some "#666"
    message_type := "text", poll_data := none }

/-- History `[a (optimistic), b]` awaiting the server echo of `a`. -/
def historyAB : List OptimisticMessage :=
  [{ toMessage := msgA, isOptimistic := true }, { toMessage := msgB, isOptimistic := false }]

/-- Witness for C1 at the spec's example: echoing `a` into `[a, b]` keeps
the order `[a, b]`, keeps ids duplicate-free, and is idempotent. -/
theorem applyServerInsert_append_or_replace_witness :
    (applyServerInsert historyAB msgA).map (fun x => x.id) = ["a", "b"]
    ∧ (([msgA].foldl applyServerInsert historyAB).map (fun x => x.id)).Nodup
    ∧ applyServerInsert (applyServerInsert historyAB msgA) msgA
        = applyServerInsert historyAB msgA := by
  have h := applyServerInsert_append_or_replace historyAB msgA
  refine ⟨?_, h.2.2.2.1 [msgA] (by decide), h.2.2.2.2⟩
  rw [h.1 (by decide)]
  decide

/- Helper lemmas for the optimistic send settlement (C5). -/

lemma removeOptimisticMessage_fresh (prev : List OptimisticMessage) (tempId : String)
    (hfresh : ∀ x ∈ prev, x.id ≠ tempId) :
    removeOptimisticMessage prev tempId = prev := by
  unfold removeOptimisticMessage
  rw [List.filter_eq_self]
  intro a ha
  simpa using hfresh a ha

lemma removeOptimisticMessage_append_fresh (prev : List OptimisticMessage)
    (tempId : String) (opt : OptimisticMessage)
    (hfresh : ∀ x ∈ prev, x.id ≠ tempId) (hopt : opt.id = tempId) :
    removeOptimisticMessage (prev ++ [opt]) tempId = prev := by
  unfold removeOptimisticMessage
  rw [List.filter_append]
  have h1 : prev.filter (fun msg => msg.id != tempId) = prev := by
    rw [List.filter_eq_self]
    intro a ha
    simpa using hfresh a ha
  have h2 : [opt].filter (fun msg => msg.id != tempId) = [] := by
    simp [hopt]
  rw [h1, h2, List.append_nil]

lemma replaceOptimisticMessage_append_fresh (prev : List OptimisticMessage)
    (tempId : String) (opt : OptimisticMessage) (m : Message)
    (hfresh : ∀ x ∈ prev, x.id ≠ tempId) (hopt : opt.id = tempId) :
    replaceOptimisticMessage (prev ++ [opt]) tempId m
      = prev ++ [{ toMessage := m, isOptimistic := false }] := by
  unfold replaceOptimisticMessage
  rw [List.map_append]
  congr 1
  · have hfix : ∀ a ∈ prev,
        (if a.id = tempId then ({ toMessage := m, isOptimistic := false } : OptimisticMessage)
         else a) = a := by
      intro a ha
      simp [hfresh a ha]
    rw [List.map_congr_left hfix]
    exact List.map_id' prev
  · simp [hopt]

/-- C5: once the send call settles, the optimistic entry appended by
`addOptimisticMessage` reaches exactly one terminal outcome: on success the
entry is replaced in place by the server-confirmed message with the
optimistic flag cleared, and on a failure result or a thrown exception it
is removed entirely; no entry carrying the temporary id remains flagged
optimistic. -/
theorem handleSendMessage_terminal_outcome (prev : List OptimisticMessage)
    (chatGroupId : String) (now : Nat) (rand : String) (draft : MessageDraft)
    (outcome : SendOutcome)
    (hfresh : ∀ x ∈ prev, x.id ≠ mkTempId now rand) :
    (∀ x ∈ handleSendMessageRun prev chatGroupId now rand draft outcome,
        x.id = mkTempId now rand → x.isOptimistic = false)
    ∧ (∀ m, outcome = SendOutcome.success m →
        handleSendMessageRun prev chatGroupId now rand draft outcome
          = prev ++ [{ toMessage := m, isOptimistic := false }])
    ∧ (∀ e, outcome = SendOutcome.failed e ∨ outcome = SendOutcome.threw e →
        handleSendMessageRun prev chatGroupId now rand draft outcome = prev) := by
  have hoptid : (optimisticEntry chatGroupId now rand draft).id = mkTempId now rand := rfl
  have hrun : ∀ oc, handleSendMessageRun prev chatGroupId now rand draft oc
      = handleSendMessageSettle (prev ++ [optimisticEntry chatGroupId now rand draft])
          (mkTempId now rand) oc := fun _ => rfl
  have hsuccess : ∀ m, handleSendMessageSettle
      (prev ++ [optimisticEntry chatGroupId now rand draft]) (mkTempId now rand)
      (SendOutcome.success m) = prev ++ [{ toMessage := m, isOptimistic := false }] := by
    intro m
    exact replaceOptimisticMessage_append_fresh prev _ _ m hfresh hoptid
  have hremove : removeOptimisticMessage
      (prev ++ [optimisticEntry chatGroupId now rand draft]) (mkTempId now rand) = prev :=
    removeOptimisticMessage_append_fresh prev _ _ hfresh hoptid
  refine ⟨?_, ?_, ?_⟩
  · intro x hx hid
    cases outcome with
    | success m =>
        rw [hrun, hsuccess m] at hx
        rcases List.mem_append.mp hx with h | h
        · exact absurd hid (hfresh x h)
        · simp at h
          rw [h]
    | failed e =>
        rw [hrun] at hx
        simp only [handleSendMessageSettle, hremove,
          removeOptimisticMessage_fresh prev _ hfresh] at hx
        exact absurd hid (hfresh x hx)
    | threw e =>
        rw [hrun] at hx
        simp only [handleSendMessageSettle, hremove] at hx
        exact absurd hid (hfresh x hx)
  · intro m hm
    rw [hm, hrun]
    exact hsuccess m
  · intro e he
    rcases he with he | he <;> rw [he, hrun] <;>
      simp only [handleSendMessageSettle, hremove,
        removeOptimisticMessage_fresh prev _ hfresh]

/-- Witness for C5: from an empty list, a successful send leaves exactly
the confirmed message (not optimistic), and a rejected send leaves the
list empty again. -/
theorem handleSendMessage_terminal_outcome_witness :
    handleSendMessageRun [] "g1" 5 "r1" (chatScreenDraft false "anon1" "Red Fox" "hi")
        (SendOutcome.success msgA) = [{ toMessage := msgA, isOptimistic := false }]
    ∧ handleSendMessageRun [] "g1" 5 "r1" (chatScreenDraft false "anon1" "Red Fox" "hi")
        (SendOutcome.threw "network down") = [] := by
  have h1 := handleSendMessage_terminal_outcome [] "g1" 5 "r1"
    (chatScreenDraft false "anon1" "Red Fox" "hi") (SendOutcome.success msgA) (by simp)
  have h2 := handleSendMessage_terminal_outcome [] "g1" 5 "r1"
    (chatScreenDraft false "anon1" "Red Fox" "hi") (SendOutcome.threw "network down") (by simp)
  exact ⟨h1.2.1 msgA rfl, h2.2.2 "network down" (Or.inr rfl)⟩

/- The message send service (`chatMessages.ts`). -/

/-- Anonymous identity row (`types/database.ts`). -/
structure AnonymousUser where
  id : String
  device_id : String
  generated_name : String
  created_at : Nat
  last_seen : Nat
deriving DecidableEq, Repr

/-- Truncation to a signed 32-bit integer, the effect of JavaScript
bitwise operators. -/
def toInt32 (n : Int) : Int := (n + 2 ^ 31) % 2 ^ 32 - 2 ^ 31

/-- `generateAvatarColor` of `anonymousUser.ts`: hash the name with the
shift-and-subtract loop in 32-bit arithmetic and derive a hue. -/
def generateAvatarColor (name : String) : String :=
  let hash := name.data.foldl (fun a b => toInt32 (toInt32 (a * 32) - a + b.toNat)) 0
  let hue := hash.natAbs % 360
  "hsl(" ++ toString hue ++ ", 70%, 50%)"

/-- JavaScript truthiness of a nullable string parameter. -/
def jsTruthy (o : Option String) : Bool :=
  match o with
  | some s => s != ""
  | none => false

/-- JavaScript `String.prototype.trim`: strip whitespace from both ends. -/
def jsTrim (s : String) : String :=
  String.mk (((s.data.dropWhile Char.isWhitespace).reverse.dropWhile
    Char.isWhitespace).reverse)

/-- `SendMessageParams` of `chatMessages.ts`. -/
structure SendMessageParams where
  chatGroupId : String
  content : String
  senderType : SenderType
  userId : Option String := none
  userDisplayName : Option String := none
deriving DecidableEq, Repr

/-- `SendMessageResult` of `chatMessages.ts`. -/
structure SendMessageResult where
  success : Bool
  message : Option Message := none
  error : Option String := none
deriving DecidableEq, Repr

/-- The `messageData` row assembled by `sendMessage` and handed to the
insert interface (lines 89-99). -/
structure MessageInsert where
  chat_group_id : String
  content : String
  sender_type : SenderType
  user_id : Option String
  anonymous_user_id : Option String
  display_name : String
  avatar_color : String
  message_type : String
  poll_data : Option String
deriving DecidableEq, Repr

/-- The remote (or storage) calls `sendMessage` can issue, in order. -/
inductive ServiceCall where
  | hasJoinedCheck (chatGroupId : String)
  | anonymousUserFetch
  | rateLimitCheck (senderId : String) (senderType : SenderType)
  | messageInsert (row : MessageInsert)
deriving DecidableEq, Repr

/-- A remote error object: `code` may be absent, `message` is a string. -/
structure DbError where
  code : Option String
  message : String
deriving DecidableEq, Repr

/-- Result of the `check_message_rate_limit` remote procedure call. -/
inductive RpcBoolResult where
  | ok (value : Bool)
  | err (e : DbError)
deriving DecidableEq, Repr

/-- Result of the message insert. -/
inductive InsertOutcome where
  | ok (row : Message)
  | err (e : DbError)
deriving DecidableEq, Repr

/-- The environment a single `sendMessage` execution observes: the local
join record, the anonymous identity, and the two remote results. -/
structure SendEnv where
  hasJoined : Bool
  anonymousUser : AnonymousUser
  rateLimit : RpcBoolResult
  insert : InsertOutcome
deriving DecidableEq, Repr

/-- Sender resolution of `sendMessage` (lines 52-67): the authenticated
path needs `senderType === 'user'` and truthy `userId`/`userDisplayName`,
otherwise the anonymous identity is fetched (one extra service call). -/
def resolveSender (env : SendEnv) (params : SendMessageParams) :
    String × String × List ServiceCall :=
  if params.senderType == SenderType.user && jsTruthy params.userId
      && jsTruthy params.userDisplayName then
    (params.userId.getD "", params.userDisplayName.getD "", [])
  else
    (env.anonymousUser.id, env.anonymousUser.generated_name, [ServiceCall.anonymousUserFetch])

/-- The `messageData` built at lines 89-99: the sender reference matching
`sender_type` holds the sender id, the other is null. -/
def buildMessageData (params : SendMessageParams) (senderId displayName : String) :
    MessageInsert :=
  { chat_group_id := params.chatGroupId
    content := jsTrim params.content
    sender_type := params.senderType
    user_id := if params.senderType = SenderType.user then some senderId else none
    anonymous_user_id := if params.senderType = SenderType.anonymous then some senderId else none
    display_name := displayName
    avatar_color := generateAvatarColor senderId
    message_type := "text"
    poll_data := none }

/-- JavaScript `String.prototype.includes`: substring containment. -/
def strIncludes (s pat : String) : Bool :=
  s.data.tails.any (fun t => pat.data.isPrefixOf t)

/-- JavaScript `String.prototype.toLowerCase` (ASCII range). -/
def jsToLower (s : String) : String :=
  String.mk (s.data.map Char.toLower)

/-- The error mapping of a failed insert (`chatMessages.ts` lines
110-122): unique-constraint, foreign-key and rate-limit errors get
specific messages, everything else the generic send failure. -/
def insertErrorResult (e : DbError) : SendMessageResult :=
  if e.code == some "23505" then
    { success := false, error := some "Duplicate message detected" }
  else if e.code == some "23503" then
    { success := false, error := some "Invalid chat or user reference" }
  else if strIncludes e.message "rate limit" then
    { success := false, error := some "Rate limit exceeded" }
  else
    { success := false, error := some "Failed to send message" }

/-- `sendMessage` of `chatMessages.ts` (lines 23-142), returning the
result together with the trace of service calls it issued, in order. -/
def sendMessage (env : SendEnv) (params : SendMessageParams) :
    SendMessageResult × List ServiceCall :=
  if jsTrim params.content = "" then
    ({ success := false, error := some "Message cannot be empty" }, [])
  else if 1000 < params.content.length then
    ({ success := false, error := some "Message too long (max 1000 characters)" }, [])
  else if env.hasJoined = false then
    ({ success := false, error := some "You must join this chat before sending messages" },
      [ServiceCall.hasJoinedCheck params.chatGroupId])
  else
    let s := resolveSender env params
    let calls := ServiceCall.hasJoinedCheck params.chatGroupId :: s.2.2
      ++ [ServiceCall.rateLimitCheck s.1 params.senderType]
    match env.rateLimit with
    | .err _ => ({ success := false, error := some "Rate limit check failed" }, calls)
    | .ok false =>
        ({ success := false,
           error := some "Rate limit exceeded. Please wait before sending another message." },
          calls)
    | .ok true =>
        let row := buildMessageData params s.1 s.2.1
        let calls2 := calls ++ [ServiceCall.messageInsert row]
        match env.insert with
        | .ok data => ({ success := true, message := some data }, calls2)
        | .err e => (insertErrorResult e, calls2)

/- Proof scaffolding: the call prefix up to and including the rate-limit
check, and the inserted row, of a `sendMessage` run that passed
validation and authorization. -/

/-- Calls issued before the insert decision: the join check, possibly the
anonymous-identity fetch, then the rate-limit check. -/
def sendCallsBeforeInsert (env : SendEnv) (params : SendMessageParams) : List ServiceCall :=
  ServiceCall.hasJoinedCheck params.chatGroupId :: (resolveSender env params).2.2
    ++ [ServiceCall.rateLimitCheck (resolveSender env params).1 params.senderType]

/-- The row `sendMessage` inserts when it reaches the insert. -/
def sendRow (env : SendEnv) (params : SendMessageParams) : MessageInsert :=
  buildMessageData params (resolveSender env params).1 (resolveSender env params).2.1

lemma messageInsert_not_mem_before (env : SendEnv) (params : SendMessageParams)
    (row : MessageInsert) : ServiceCall.messageInsert row ∉ sendCallsBeforeInsert env params := by
  unfold sendCallsBeforeInsert resolveSender
  by_cases h : (params.senderType == SenderType.user && jsTruthy params.userId
      && jsTruthy params.userDisplayName) = true
  · simp [h]
  · simp [h]

lemma sendMessage_rateLimit_err (env : SendEnv) (params : SendMessageParams) (e : DbError)
    (h1 : ¬ jsTrim params.content = "") (h2 : ¬ 1000 < params.content.length)
    (h3 : env.hasJoined = true) (hr : env.rateLimit = RpcBoolResult.err e) :
    sendMessage env params
      = ({ success := false, error := some "Rate limit check failed" },
          sendCallsBeforeInsert env params) := by
  unfold sendMessage
  rw [if_neg h1, if_neg h2, if_neg (by simp [h3]), hr]
  rfl

lemma sendMessage_rateLimit_false (env : SendEnv) (params : SendMessageParams)
    (h1 : ¬ jsTrim params.content = "") (h2 : ¬ 1000 < params.content.length)
    (h3 : env.hasJoined = true) (hr : env.rateLimit = RpcBoolResult.ok false) :
    sendMessage env params
      = ({ success := false,
           error := some "Rate limit exceeded. Please wait before sending another message." },
          sendCallsBeforeInsert env params) := by
  unfold sendMessage
  rw [if_neg h1, if_neg h2, if_neg (by simp [h3]), hr]
  rfl

lemma sendMessage_rateLimit_true_calls (env : SendEnv) (params : SendMessageParams)
    (h1 : ¬ jsTrim params.content = "") (h2 : ¬ 1000 < params.content.length)
    (h3 : env.hasJoined = true) (hr : env.rateLimit = RpcBoolResult.ok true) :
    (sendMessage env params).2
      = sendCallsBeforeInsert env params ++ [ServiceCall.messageInsert (sendRow env params)] := by
  unfold sendMessage
  rw [if_neg h1, if_neg h2, if_neg (by simp [h3]), hr]
  cases h : env.insert with
  | ok data => rfl
  | err e => rfl

/-- C6: a send whose content is longer than 1000 characters fails before
any service call is issued (an all-whitespace overlong content falls into
the earlier empty-content rejection, likewise with no calls). -/
theorem sendMessage_overlong_no_network (env : SendEnv) (params : SendMessageParams)
    (h : 1000 < params.content.length) :
    (sendMessage env params).1.success = false ∧ (sendMessage env params).2 = [] := by
  unfold sendMessage
  by_cases htrim : jsTrim params.content = ""
  · rw [if_pos htrim]
    exact ⟨rfl, rfl⟩
  · rw [if_neg htrim, if_pos h]
    exact ⟨rfl, rfl⟩

/-- A 1001-character content. -/
def overlongContent : String := String.mk (List.replicate 1001 'a')

/-- Anonymous identity used by the concrete send scenarios. -/
def anonW : AnonymousUser :=
  { id := "anon1", device_id := "d1", generated_name := "CrimsonFox"
    created_at := 0, last_seen := 0 }

/-- Environment where every remote step succeeds. -/
def envOk : SendEnv :=
  { hasJoined := true, anonymousUser := anonW, rateLimit := .ok true, insert := .ok msgA }

/-- Environment where the rate-limit check returns false. -/
def envLimited : SendEnv :=
  { hasJoined := true, anonymousUser := anonW, rateLimit := .ok false, insert := .ok msgA }

set_option maxRecDepth 100000 in
/-- Witness for C6: a 1001-character message is rejected with no calls. -/
theorem sendMessage_overlong_no_network_witness :
    (sendMessage envOk
        { chatGroupId := "g1", content := overlongContent, senderType := .anonymous }).1.success
      = false
    ∧ (sendMessage envOk
        { chatGroupId := "g1", content := overlongContent, senderType := .anonymous }).2 = [] :=
  sendMessage_overlong_no_network envOk
    { chatGroupId := "g1", content := overlongContent, senderType := .anonymous } (by decide)

/-- C7: every insert is preceded by a rate-limit check whose result was
true, and a false rate-limit result stops the send with the specific
rate-limit error, distinct from the generic send failure. -/
theorem sendMessage_rate_limit_gate (env : SendEnv) (params : SendMessageParams) :
    ((∃ row, ServiceCall.messageInsert row ∈ (sendMessage env params).2) →
        env.rateLimit = RpcBoolResult.ok true
        ∧ ∃ pre row, (sendMessage env params).2
            = pre ++ [ServiceCall.rateLimitCheck (resolveSender env params).1 params.senderType,
                ServiceCall.messageInsert row])
    ∧ (env.rateLimit = RpcBoolResult.ok false → env.hasJoined = true →
        ¬ jsTrim params.content = "" → ¬ 1000 < params.content.length →
        (sendMessage env params).1.success = false
        ∧ (sendMessage env params).1.error
            = some "Rate limit exceeded. Please wait before sending another message."
        ∧ (∀ row, ServiceCall.messageInsert row ∉ (sendMessage env params).2)
        ∧ (sendMessage env params).1.error ≠ some "Failed to send message") := by
  constructor
  · rintro ⟨row, hmem⟩
    by_cases htrim : jsTrim params.content = ""
    · unfold sendMessage at hmem
      rw [if_pos htrim] at hmem
      simp at hmem
    · by_cases hlen : 1000 < params.content.length
      · unfold sendMessage at hmem
        rw [if_neg htrim, if_pos hlen] at hmem
        simp at hmem
      · by_cases hj : env.hasJoined = true
        · cases hr : env.rateLimit with
          | err e =>
              rw [sendMessage_rateLimit_err env params e htrim hlen hj hr] at hmem
              exact absurd hmem (messageInsert_not_mem_before env params row)
          | ok b =>
              cases b with
              | false =>
                  rw [sendMessage_rateLimit_false env params htrim hlen hj hr] at hmem
                  exact absurd hmem (messageInsert_not_mem_before env params row)
              | true =>
                  refine ⟨rfl, ServiceCall.hasJoinedCheck params.chatGroupId
                      :: (resolveSender env params).2.2, sendRow env params, ?_⟩
                  rw [sendMessage_rateLimit_true_calls env params htrim hlen hj hr]
                  simp [sendCallsBeforeInsert]
        · unfold sendMessage at hmem
          rw [if_neg htrim, if_neg hlen,
            if_pos (by simpa using hj)] at hmem
          simp at hmem
  · intro hr hj htrim hlen
    rw [sendMessage_rateLimit_false env params htrim hlen hj hr]
    refine ⟨rfl, rfl, ?_, by simp⟩
    intro row
    exact messageInsert_not_mem_before env params row

/-- Parameters of a small anonymous send. -/
def paramsAnon : SendMessageParams :=
  { chatGroupId := "g1", content := "hi", senderType := .anonymous }

set_option maxRecDepth 100000 in
/-- Witness for C7: with the rate limit exhausted the specific error is
returned, and in a successful run the trace ends with the rate-limit
check followed by the insert. -/
theorem sendMessage_rate_limit_gate_witness :
    (sendMessage envLimited paramsAnon).1.error
        = some "Rate limit exceeded. Please wait before sending another message."
    ∧ (∀ row, ServiceCall.messageInsert row ∉ (sendMessage envLimited paramsAnon).2)
    ∧ ∃ pre row, (sendMessage envOk paramsAnon).2
        = pre ++ [ServiceCall.rateLimitCheck (resolveSender envOk paramsAnon).1
            paramsAnon.senderType, ServiceCall.messageInsert row] := by
  have hb := (sendMessage_rate_limit_gate envLimited paramsAnon).2 rfl rfl
    (by decide) (by decide)
  have ha := (sendMessage_rate_limit_gate envOk paramsAnon).1
    ⟨sendRow envOk paramsAnon, by decide⟩
  exact ⟨hb.2.1, hb.2.2.1, ha.2⟩

/-- Exactly one sender reference is populated and it matches the sender
type. -/
def senderExclusive (st : SenderType) (uid aid : Option String) : Prop :=
  (st = SenderType.user ∧ uid.isSome = true ∧ aid = none)
    ∨ (st = SenderType.anonymous ∧ aid.isSome = true ∧ uid = none)

/-- C9: every row `sendMessage` inserts, and every optimistic entry the
chat screen appends (given the screen's non-empty current user id guard),
populates exactly one of `user_id`/`anonymous_user_id`, matching its
`sender_type`. -/
theorem messageRow_sender_exclusive (env : SendEnv) (params : SendMessageParams)
    (row : MessageInsert) :
    (ServiceCall.messageInsert row ∈ (sendMessage env params).2 →
        senderExclusive row.sender_type row.user_id row.anonymous_user_id)
    ∧ ∀ (isAuthenticated : Bool) (currentUserId currentUserName content
        chatGroupId : String) (now : Nat) (rand : String),
        currentUserId ≠ "" →
        senderExclusive
          (optimisticEntry chatGroupId now rand
            (chatScreenDraft isAuthenticated currentUserId currentUserName content)).sender_type
          (optimisticEntry chatGroupId now rand
            (chatScreenDraft isAuthenticated currentUserId currentUserName content)).user_id
          (optimisticEntry chatGroupId now rand
            (chatScreenDraft isAuthenticated currentUserId currentUserName content)).anonymous_user_id := by
  constructor
  · intro hmem
    have hrow : row = sendRow env params := by
      by_cases htrim : jsTrim params.content = ""
      · unfold sendMessage at hmem
        rw [if_pos htrim] at hmem
        simp at hmem
      · by_cases hlen : 1000 < params.content.length
        · unfold sendMessage at hmem
          rw [if_neg htrim, if_pos hlen] at hmem
          simp at hmem
        · by_cases hj : env.hasJoined = true
          · cases hr : env.rateLimit with
            | err e =>
                rw [sendMessage_rateLimit_err env params e htrim hlen hj hr] at hmem
                exact absurd hmem (messageInsert_not_mem_before env params row)
            | ok b =>
                cases b with
                | false =>
                    rw [sendMessage_rateLimit_false env params htrim hlen hj hr] at hmem
                    exact absurd hmem (messageInsert_not_mem_before env params row)
                | true =>
                    rw [sendMessage_rateLimit_true_calls env params htrim hlen hj hr] at hmem
                    rcases List.mem_append.mp hmem with h | h
                    · exact absurd h (messageInsert_not_mem_before env params row)
                    · simpa using h
          · unfold sendMessage at hmem
            rw [if_neg htrim, if_neg hlen,
              if_pos (by simpa using hj)] at hmem
            simp at hmem
    rw [hrow]
    unfold sendRow buildMessageData senderExclusive
    cases params.senderType with
    | user => exact Or.inl ⟨rfl, by simp, by simp⟩
    | anonymous => exact Or.inr ⟨rfl, by simp, by simp⟩
  · intro isAuthenticated currentUserId currentUserName content chatGroupId now rand huid
    unfold optimisticEntry chatScreenDraft senderExclusive
    cases isAuthenticated with
    | true => exact Or.inl ⟨rfl, by simp [jsOrNull, huid], by simp [jsOrNull]⟩
    | false => exact Or.inr ⟨rfl, by simp [jsOrNull, huid], by simp [jsOrNull]⟩

set_option maxRecDepth 100000 in
/-- Witness for C9: the concrete inserted row of the successful anonymous
send, and a concrete authenticated optimistic entry. -/
theorem messageRow_sender_exclusive_witness :
    senderExclusive (sendRow envOk paramsAnon).sender_type (sendRow envOk paramsAnon).user_id
        (sendRow envOk paramsAnon).anonymous_user_id
    ∧ senderExclusive
        (optimisticEntry "g1" 5 "r1" (chatScreenDraft true "u7" "Ann" "hi")).sender_type
        (optimisticEntry "g1" 5 "r1" (chatScreenDraft true "u7" "Ann" "hi")).user_id
        (optimisticEntry "g1" 5 "r1" (chatScreenDraft true "u7" "Ann" "hi")).anonymous_user_id := by
  have h := messageRow_sender_exclusive envOk paramsAnon (sendRow envOk paramsAnon)
  exact ⟨h.1 (by decide), h.2 true "u7" "Ann" "hi" "g1" 5 "r1" (by decide)⟩

/- Nearby-group discovery (`chatGroups.ts`).  Coordinates and distances
are modelled over the reals; JavaScript numbers carry no NaN here, and
the zero-coordinate truthiness check is modelled as equality with 0. -/

/-- The `Location` value of `types/app.ts`. -/
structure Location where
  latitude : ℝ
  longitude : ℝ
  accuracy : Option ℝ := none

/-- `Math.atan2 y x` (standard real quadrant-aware arctangent). -/
noncomputable def atan2 (y x : ℝ) : ℝ :=
  if 0 < x then Real.arctan (y / x)
  else if x < 0 ∧ 0 ≤ y then Real.arctan (y / x) + Real.pi
  else if x < 0 ∧ y < 0 then Real.arctan (y / x) - Real.pi
  else if x = 0 ∧ 0 < y then Real.pi / 2
  else if x = 0 ∧ y < 0 then -(Real.pi / 2)
  else 0

/-- `calculateDistance` of `chatGroups.ts` (lines 156-166): the haversine
great-circle distance in kilometres, R = 6371. -/
noncomputable def calculateDistance (lat1 lng1 lat2 lng2 : ℝ) : ℝ :=
  let dLat := (lat2 - lat1) * Real.pi / 180
  let dLng := (lng2 - lng1) * Real.pi / 180
  let a := Real.sin (dLat / 2) * Real.sin (dLat / 2)
    + Real.cos (lat1 * Real.pi / 180) * Real.cos (lat2 * Real.pi / 180)
      * Real.sin (dLng / 2) * Real.sin (dLng / 2)
  let c := 2 * atan2 (Real.sqrt a) (Real.sqrt (1 - a))
  6371 * c

/-- C8: the haversine distance is zero on identical coordinates and
symmetric in its two coordinate pairs. -/
theorem calculateDistance_zero_and_symm :
    (∀ lat lng : ℝ, calculateDistance lat lng lat lng = 0)
    ∧ ∀ lat1 lng1 lat2 lng2 : ℝ,
        calculateDistance lat1 lng1 lat2 lng2 = calculateDistance lat2 lng2 lat1 lng1 := by
  have hatan : atan2 0 1 = 0 := by
    unfold atan2
    rw [if_pos one_pos]
    simp
  constructor
  · intro lat lng
    simp only [calculateDistance, sub_self, zero_mul, zero_div, Real.sin_zero, mul_zero,
      zero_add, add_zero, Real.sqrt_zero, sub_zero, Real.sqrt_one]
    rw [hatan]
    ring
  · intro lat1 lng1 lat2 lng2
    have key : ∀ x y : ℝ, x = y →
        6371 * (2 * atan2 (Real.sqrt x) (Real.sqrt (1 - x)))
          = 6371 * (2 * atan2 (Real.sqrt y) (Real.sqrt (1 - y))) := by
      intro x y h
      rw [h]
    simp only [calculateDistance]
    apply key
    have e1 : (lat2 - lat1) * Real.pi / 180 / 2 = -((lat1 - lat2) * Real.pi / 180 / 2) := by
      ring
    have e2 : (lng2 - lng1) * Real.pi / 180 / 2 = -((lng1 - lng2) * Real.pi / 180 / 2) := by
      ring
    simp only [e1, e2, Real.sin_neg]
    ring

/-- A candidate row fetched by the primary discovery query (the selected
columns of `chatGroups.ts` lines 323-334; nullable columns optional). -/
structure ChatGroupRow where
  id : String
  name : String
  description : Option String
  creator_id : Option String
  lat : ℝ
  lng : ℝ
  h3_index_8 : Option String
  is_active : Bool
  last_activity : Nat
  created_at : Nat

/-- The `ChatGroup` interface of `chatGroups.ts` (lines 138-151);
`member_count` and `distance` are the optional derived fields. -/
structure ChatGroup where
  id : String
  name : String
  description : String
  creator_id : String
  lat : ℝ
  lng : ℝ
  h3_index_8 : String
  created_at : Nat
  last_activity : Nat
  is_active : Bool
  member_count : Option Nat := none
  distance : Option ℝ := none

/-- The per-candidate mapping of the primary pipeline (lines 372-390):
default the nullable columns, annotate with the computed distance, and
attach the placeholder random member count (`memberCount` stands for the
`Math.random()` draw). -/
noncomputable def mapCandidate (userLocation : Location) (memberCount : Nat)
    (group : ChatGroupRow) : ChatGroup :=
  { id := group.id
    name := group.name
    description := jsOr group.description ""
    creator_id := jsOr group.creator_id "unknown"
    lat := group.lat
    lng := group.lng
    h3_index_8 := jsOr group.h3_index_8 ""
    created_at := group.created_at
    last_activity := group.last_activity
    is_active := group.is_active
    distance := some (calculateDistance userLocation.latitude userLocation.longitude
      group.lat group.lng)
    member_count := some memberCount }

/-- The filter predicate `group.distance <= radiusKm` (a JS comparison
against `undefined` is false, hence the `none` branch). -/
noncomputable def withinRadius (radiusKm : ℝ) (g : ChatGroup) : Bool :=
  match g.distance with
  | some d => decide (d ≤ radiusKm)
  | none => false

/-- The sort comparator `(a, b) => a.distance - b.distance` as a total
order on the annotated groups (all pipeline entries carry a distance). -/
noncomputable def byDistance (a b : ChatGroup) : Bool :=
  decide (a.distance.getD 0 ≤ b.distance.getD 0)

/-- The successful-path body of `getNearbyChatsGroups` (lines 371-399):
map each candidate to an annotated group, keep those within the radius,
sort ascending by distance, and truncate to 50. -/
noncomputable def nearbyPipeline (userLocation : Location) (radiusKm : ℝ)
    (rand : ChatGroupRow → Nat) (chatGroups : List ChatGroupRow) : List ChatGroup :=
  (((chatGroups.map (fun g => mapCandidate userLocation (rand g) g)).filter
      (withinRadius radiusKm)).mergeSort byDistance).take 50

/-- C3: every group the pipeline returns carries the haversine distance to
the origin, that distance is at most the radius, the output is sorted
ascending by distance, and at most 50 groups are returned. -/
theorem nearbyPipeline_within_radius_sorted_capped (userLocation : Location)
    (radiusKm : ℝ) (rand : ChatGroupRow → Nat) (chatGroups : List ChatGroupRow) :
    (∀ g ∈ nearbyPipeline userLocation radiusKm rand chatGroups,
        g.distance = some (calculateDistance userLocation.latitude userLocation.longitude
          g.lat g.lng)
        ∧ calculateDistance userLocation.latitude userLocation.longitude g.lat g.lng
            ≤ radiusKm)
    ∧ (nearbyPipeline userLocation radiusKm rand chatGroups).Pairwise
        (fun a b => a.distance.getD 0 ≤ b.distance.getD 0)
    ∧ (nearbyPipeline userLocation radiusKm rand chatGroups).length ≤ 50 := by
  refine ⟨?_, ?_, List.length_take_le 50 _⟩
  · intro g hg
    have h1 : g ∈ (((chatGroups.map (fun g => mapCandidate userLocation (rand g) g)).filter
        (withinRadius radiusKm)).mergeSort byDistance) := List.mem_of_mem_take hg
    have h2 : g ∈ (chatGroups.map (fun g => mapCandidate userLocation (rand g) g)).filter
        (withinRadius radiusKm) := (List.mergeSort_perm _ byDistance).mem_iff.mp h1
    obtain ⟨h3, h4⟩ := List.mem_filter.mp h2
    obtain ⟨row, hrow, rfl⟩ := List.mem_map.mp h3
    refine ⟨rfl, ?_⟩
    have h5 : withinRadius radiusKm (mapCandidate userLocation (rand row) row) = true := h4
    unfold withinRadius mapCandidate at h5
    simpa using h5
  · have htrans : ∀ a b c : ChatGroup, byDistance a b = true → byDistance b c = true →
        byDistance a c = true := by
      intro a b c hab hbc
      unfold byDistance at hab hbc ⊢
      simp only [decide_eq_true_eq] at hab hbc ⊢
      exact le_trans hab hbc
    have htotal : ∀ a b : ChatGroup, (byDistance a b || byDistance b a) = true := by
      intro a b
      unfold byDistance
      simpa using le_total (a.distance.getD 0) (b.distance.getD 0)
    have hs := List.sorted_mergeSort htrans htotal
      ((chatGroups.map (fun g => mapCandidate userLocation (rand g) g)).filter
        (withinRadius radiusKm))
    have hsub := List.Pairwise.sublist (List.take_sublist 50 _) hs
    exact hsub.imp (fun h => by
      unfold byDistance at h
      simpa using h)

/-- `isRetryableError` of `chatGroups.ts` (lines 417-423): a fixed set of
error codes, or one of four substrings of the lower-cased message. -/
def retryableCodes : List String := ["PGRST301", "PGRST302", "08006", "08001", "08004"]

/-- The retryable message substrings. -/
def retryableMessages : List String := ["timeout", "connection", "network", "unavailable"]

/-- Classification of a resolved query error as worth one simplified
retry. -/
def isRetryableError (e : DbError) : Bool :=
  (match e.code with
   | some c => retryableCodes.contains c
   | none => false)
  || retryableMessages.any (fun msg => strIncludes (jsToLower e.message) msg)

/-- `getMockNearbyChats` (lines 249-294): the fixed 3-entry sample set at
deterministic offsets from the caller's location; `now` is `Date.now()`. -/
noncomputable def getMockNearbyChats (userLocation : Location) (now : Nat) :
    List ChatGroup :=
  [ { id := "mock-study-group"
      name := "Library Study Session"
      description := "Students studying for finals at the university library. Join us for quiet study time and occasional breaks!"
      creator_id := "mock-user"
      lat := userLocation.latitude + 0.002
      lng := userLocation.longitude + 0.002
      h3_index_8 := "mock-h3"
      created_at := now - 3600000
      last_activity := now - 300000
      is_active := true
      member_count := some 8 },
    { id := "mock-coffee-chat"
      name := "Coffee & Chat"
      description := "Casual conversation over coffee at the local café. Perfect for meeting new people and networking!"
      creator_id := "mock-user-2"
      lat := userLocation.latitude - 0.0015
      lng := userLocation.longitude - 0.0015
      h3_index_8 := "mock-h3-2"
      created_at := now - 7200000
      last_activity := now - 600000
      is_active := true
      member_count := some 12 },
    { id := "mock-event-group"
      name := "Concert Goers"
      description := "People heading to the concert tonight! Share ride info, meet up before the show, and chat about the lineup."
      creator_id := "mock-user-3"
      lat := userLocation.latitude + 0.003
      lng := userLocation.longitude + 0.001
      h3_index_8 := "mock-h3-3"
      created_at := now - 1800000
      last_activity := now - 120000
      is_active := true
      member_count := some 25 } ]

/-- A row of the simplified fallback query (columns of line 436). -/
structure SimplifiedRow where
  id : String
  name : String
  lat : ℝ
  lng : ℝ
  is_active : Bool
  created_at : Nat

/-- The per-row mapping of the simplified query (lines 456-474); columns
absent from the simplified select are defaulted (the empty
`last_activity` string is modelled as timestamp 0). -/
noncomputable def mapSimplified (userLocation : Location) (memberCount : Nat)
    (group : SimplifiedRow) : ChatGroup :=
  { id := group.id
    name := group.name
    description := ""
    creator_id := "unknown"
    lat := group.lat
    lng := group.lng
    h3_index_8 := ""
    created_at := group.created_at
    last_activity := 0
    is_active := group.is_active
    distance := some (calculateDistance userLocation.latitude userLocation.longitude
      group.lat group.lng)
    member_count := some memberCount }

/-- How an awaited remote query settles: rows, a resolved error object, or
a rejected promise (the injected `Promise.race` timeout rejects). -/
inductive QueryOutcome (α : Type) where
  | rows (data : List α)
  | failure (e : DbError)
  | thrown (message : String)

/-- `attemptSimplifiedQuery` (lines 426-485): a resolved error or a
rejection degrades to the sample set; otherwise filter, sort and truncate
to 20. -/
noncomputable def attemptSimplifiedQuery (userLocation : Location) (radiusKm : ℝ)
    (now : Nat) (rand2 : SimplifiedRow → Nat)
    (simplified : QueryOutcome SimplifiedRow) : List ChatGroup :=
  match simplified with
  | .thrown _ => getMockNearbyChats userLocation now
  | .failure _ => getMockNearbyChats userLocation now
  | .rows data =>
      if data.isEmpty then []
      else
        (((data.map (fun g => mapSimplified userLocation (rand2 g) g)).filter
            (withinRadius radiusKm)).mergeSort byDistance).take 20

/-- The environment one `getNearbyChatsGroups` call observes: client
availability, how the primary and simplified queries settle, the clock,
and the `Math.random()` member-count draws. -/
structure DiscoveryEnv where
  clientAvailable : Bool
  primary : QueryOutcome ChatGroupRow
  simplified : QueryOutcome SimplifiedRow
  now : Nat
  rand : ChatGroupRow → Nat
  rand2 : SimplifiedRow → Nat

/-- Result of a discovery run plus which queries were attempted. -/
structure DiscoveryOutcome where
  result : List ChatGroup
  primaryAttempted : Bool
  simplifiedAttempted : Bool

/-- `getNearbyChatsGroups` (lines 295-414): zero/absent coordinates (the
`!userLocation?.latitude` truthiness test) and a missing client short-cut
to the sample set; a rejected primary promise (including the injected
10-second timeout) lands in the outer catch, returning the sample set
without a retry; a resolved retryable error triggers the single
simplified retry; a resolved non-retryable error returns the sample set;
rows go through the filter/sort/truncate pipeline. -/
noncomputable def getNearbyChatsGroupsRun (env : DiscoveryEnv) (userLocation : Location)
    (radiusKm : ℝ) : DiscoveryOutcome :=
  if userLocation.latitude = 0 ∨ userLocation.longitude = 0 then
    { result := getMockNearbyChats userLocation env.now
      primaryAttempted := false, simplifiedAttempted := false }
  else if env.clientAvailable = false then
    { result := getMockNearbyChats userLocation env.now
      primaryAttempted := false, simplifiedAttempted := false }
  else
    match env.primary with
    | .thrown _ =>
        { result := getMockNearbyChats userLocation env.now
          primaryAttempted := true, simplifiedAttempted := false }
    | .failure e =>
        if isRetryableError e then
          { result := attemptSimplifiedQuery userLocation radiusKm env.now env.rand2
              env.simplified
            primaryAttempted := true, simplifiedAttempted := true }
        else
          { result := getMockNearbyChats userLocation env.now
            primaryAttempted := true, simplifiedAttempted := false }
    | .rows chatGroups =>
        if chatGroups.isEmpty then
          { result := [], primaryAttempted := true, simplifiedAttempted := false }
        else
          { result := nearbyPipeline userLocation radiusKm env.rand chatGroups
            primaryAttempted := true, simplifiedAttempted := false }

/-- C10: an origin whose latitude or longitude is exactly 0 is treated as
invalid by the truthiness check and short-circuits to the sample set with
no remote query attempted; a missing remote client does the same. -/
theorem getNearbyChats_zero_origin_mock (env : DiscoveryEnv) (userLocation : Location)
    (radiusKm : ℝ) :
    ((userLocation.latitude = 0 ∨ userLocation.longitude = 0) →
        getNearbyChatsGroupsRun env userLocation radiusKm
          = { result := getMockNearbyChats userLocation env.now
              primaryAttempted := false, simplifiedAttempted := false })
    ∧ (env.clientAvailable = false →
        getNearbyChatsGroupsRun env userLocation radiusKm
          = { result := getMockNearbyChats userLocation env.now
              primaryAttempted := false, simplifiedAttempted := false }) := by
  constructor
  · intro h
    unfold getNearbyChatsGroupsRun
    rw [if_pos h]
  · intro h
    unfold getNearbyChatsGroupsRun
    by_cases h0 : userLocation.latitude = 0 ∨ userLocation.longitude = 0
    · rw [if_pos h0]
    · rw [if_neg h0, if_pos h]

/-- Environment with an available client and an empty candidate set. -/
def envEmptyRows : DiscoveryEnv :=
  { clientAvailable := true, primary := .rows [], simplified := .rows []
    now := 1700000000000, rand := fun _ => 1, rand2 := fun _ => 1 }

/-- Environment whose remote client is unavailable. -/
def envNoClient : DiscoveryEnv :=
  { clientAvailable := false, primary := .rows [], simplified := .rows []
    now := 1700000000000, rand := fun _ => 1, rand2 := fun _ => 1 }

/-- An origin on the equator (latitude exactly 0). -/
noncomputable def originEquator : Location := { latitude := 0, longitude := 151.095 }

/-- The spec's Sydney origin. -/
noncomputable def locSydney : Location := { latitude := -33.8737, longitude := 151.095 }

/-- Witness for C10: the equator origin and the missing client both yield
the sample set without attempting the primary query. -/
theorem getNearbyChats_zero_origin_mock_witness :
    getNearbyChatsGroupsRun envEmptyRows originEquator 5
        = { result := getMockNearbyChats originEquator envEmptyRows.now
            primaryAttempted := false, simplifiedAttempted := false }
    ∧ getNearbyChatsGroupsRun envNoClient locSydney 5
        = { result := getMockNearbyChats locSydney envNoClient.now
            primaryAttempted := false, simplifiedAttempted := false } := by
  have h1 := (getNearbyChats_zero_origin_mock envEmptyRows originEquator 5).1 (Or.inl rfl)
  have h2 := (getNearbyChats_zero_origin_mock envNoClient locSydney 5).2 rfl
  exact ⟨h1, h2⟩

/-- Environment whose primary query rejects with the injected timeout. -/
def envTimeout : DiscoveryEnv :=
  { clientAvailable := true, primary := .thrown "Database query timeout"
    simplified := .rows [], now := 1700000000000, rand := fun _ => 1, rand2 := fun _ => 1 }

set_option maxRecDepth 100000 in
/-- Counterexample to C4 as stated: the primary request timeout (whose
message the retryable classifier itself counts as retryable) rejects the
promise, lands in the outer catch, and returns the sample set without
ever attempting the simplified query. -/
theorem getNearbyChats_timeout_skips_retry :
    isRetryableError { code := none, message := "Database query timeout" } = true
    ∧ (getNearbyChatsGroupsRun envTimeout locSydney 5).simplifiedAttempted = false
    ∧ (getNearbyChatsGroupsRun envTimeout locSydney 5).result
        = getMockNearbyChats locSydney envTimeout.now := by
  have hval : ¬(locSydney.latitude = 0 ∨ locSydney.longitude = 0) := by
    rintro (h | h) <;> norm_num [locSydney] at h
  have hrun : getNearbyChatsGroupsRun envTimeout locSydney 5
      = { result := getMockNearbyChats locSydney envTimeout.now
          primaryAttempted := true, simplifiedAttempted := false } := by
    unfold getNearbyChatsGroupsRun
    rw [if_neg hval]
    rfl
  refine ⟨by decide, by rw [hrun], by rw [hrun]⟩

/-- C4 (amended): a primary query that resolves with a retryable error
triggers exactly one simplified retry; a rejected primary promise (which
is how the injected request timeout manifests), or a resolved
non-retryable error, returns the sample set without retrying; and a
simplified retry that fails or rejects returns the sample set. -/
theorem getNearbyChats_retry_policy (env : DiscoveryEnv) (userLocation : Location)
    (radiusKm : ℝ)
    (hvalid : ¬(userLocation.latitude = 0 ∨ userLocation.longitude = 0))
    (hclient : env.clientAvailable = true) :
    (∀ e, env.primary = QueryOutcome.failure e → isRetryableError e = true →
        getNearbyChatsGroupsRun env userLocation radiusKm
          = { result := attemptSimplifiedQuery userLocation radiusKm env.now env.rand2
                env.simplified
              primaryAttempted := true, simplifiedAttempted := true })
    ∧ (∀ e, env.primary = QueryOutcome.failure e → isRetryableError e = false →
        getNearbyChatsGroupsRun env userLocation radiusKm
          = { result := getMockNearbyChats userLocation env.now
              primaryAttempted := true, simplifiedAttempted := false })
    ∧ (∀ m, env.primary = QueryOutcome.thrown m →
        getNearbyChatsGroupsRun env userLocation radiusKm
          = { result := getMockNearbyChats userLocation env.now
              primaryAttempted := true, simplifiedAttempted := false })
    ∧ (∀ e, env.simplified = QueryOutcome.failure e →
        attemptSimplifiedQuery userLocation radiusKm env.now env.rand2 env.simplified
          = getMockNearbyChats userLocation env.now)
    ∧ (∀ m, env.simplified = QueryOutcome.thrown m →
        attemptSimplifiedQuery userLocation radiusKm env.now env.rand2 env.simplified
          = getMockNearbyChats userLocation env.now) := by
  have hnc : ¬(env.clientAvailable = false) := by simp [hclient]
  refine ⟨?_, ?_, ?_, ?_, ?_⟩
  · intro e hp hr
    unfold getNearbyChatsGroupsRun
    rw [if_neg hvalid, if_neg hnc]
    simp [hp, hr]
  · intro e hp hr
    unfold getNearbyChatsGroupsRun
    rw [if_neg hvalid, if_neg hnc]
    simp [hp, hr]
  · intro m hp
    unfold getNearbyChatsGroupsRun
    rw [if_neg hvalid, if_neg hnc]
    simp [hp]
  · intro e hs
    unfold attemptSimplifiedQuery
    rw [hs]
  · intro m hs
    unfold attemptSimplifiedQuery
    rw [hs]

/-- A resolved connection error with a retryable code. -/
def errConn : DbError := { code := some "08006", message := "could not connect to server" }

/-- Environment: primary resolves with a retryable error, and the
simplified retry then rejects with its own injected timeout. -/
def envRetryable : DiscoveryEnv :=
  { clientAvailable := true, primary := .failure errConn
    simplified := .thrown "Simplified query timeout"
    now := 1700000000000, rand := fun _ => 1, rand2 := fun _ => 1 }

set_option maxRecDepth 100000 in
/-- Witness for the amended C4: a resolved retryable error attempts the
simplified retry exactly once, and since that retry times out the run
returns the sample set. -/
theorem getNearbyChats_retry_policy_witness :
    (getNearbyChatsGroupsRun envRetryable locSydney 5).simplifiedAttempted = true
    ∧ (getNearbyChatsGroupsRun envRetryable locSydney 5).result
        = getMockNearbyChats locSydney envRetryable.now := by
  have hval : ¬(locSydney.latitude = 0 ∨ locSydney.longitude = 0) := by
    rintro (h | h) <;> norm_num [locSydney] at h
  have h := getNearbyChats_retry_policy envRetryable locSydney 5 hval rfl
  have h1 := h.1 errConn rfl (by decide)
  have h5 := h.2.2.2.2 "Simplified query timeout" rfl
  constructor
  · rw [h1]
  · rw [h1]
    exact h5

/- Initial history load of the synchronizer (`useRealTimeMessages.ts`
`loadInitialMessages`) and the paginated variant `getRecentMessages` of
`chatMessages.ts`, over the remote row-query interface: equality filter,
order by `sent_at`, row limit. -/

/-- The `order('sent_at', { ascending })` comparator. -/
def sentAtComparator (ascending : Bool) (a b : Message) : Bool :=
  if ascending then decide (a.sent_at ≤ b.sent_at) else decide (b.sent_at ≤ a.sent_at)

/-- The remote query over the `current_messages` view (rows inside the
24-hour retention window): filter by chat, order by `sent_at`, apply the
row limit. -/
def queryCurrentMessages (view : List Message) (chatGroupId : String)
    (ascending : Bool) (limit : Nat) : List Message :=
  ((view.filter (fun m => m.chat_group_id == chatGroupId)).mergeSort
    (sentAtComparator ascending)).take limit

/-- `loadInitialMessages` of `useRealTimeMessages.ts` (lines 99-129): the
query orders by `sent_at` ascending and limits to 100 rows (the code's
own comment reads "Load last 100 messages"); the subsequent
`validateMessage` filter is the identity on schema-conforming rows. -/
def loadInitialMessages (view : List Message) (chatGroupId : String) : List Message :=
  queryCurrentMessages view chatGroupId true 100

/-- `getRecentMessages` of `chatMessages.ts` (lines 147-190): order
descending, limit, then reverse into chronological order — this one does
return the most recent rows oldest-first. -/
def getRecentMessages (view : List Message) (chatGroupId : String) (limit : Nat) :
    List Message :=
  (queryCurrentMessages view chatGroupId false limit).reverse

/-- A retention-window row of chat `c` sent at instant `i`. -/
def windowRow (i : Nat) : Message :=
  { id := "m", chat_group_id := "c", content := "x", sent_at := i
    sender_type := .anonymous, user_id := none, anonymous_user_id := some "a"
    display_name := "d", avatar_color := none, message_type := "text", poll_data := none }

/-- A window holding 101 messages, sent at instants 0..100. -/
def window101 : List Message := (List.range 101).map windowRow

set_option maxRecDepth 100000 in
/-- C2 (divergence evidence): on a window of 101 messages the initial
load of the synchronizer returns the 100 oldest rows (sent_at 0..99) in
ascending order and drops the newest row (sent_at 100), contrary to the
claim and to the code's own "Load last 100 messages" comment. -/
theorem loadInitialMessages_returns_oldest :
    (loadInitialMessages window101 "c").map (fun m => m.sent_at) = List.range 100
    ∧ ∀ m ∈ loadInitialMessages window101 "c", m.sent_at ≠ 100 := by
  have hfilter : window101.filter (fun m => m.chat_group_id == "c") = window101 := by
    rw [List.filter_eq_self]
    intro m hm
    obtain ⟨i, _, rfl⟩ := List.mem_map.mp hm
    rfl
  have hpair : List.Pairwise (fun a b : Message => sentAtComparator true a b = true)
      window101 := by
    unfold window101
    rw [List.pairwise_map]
    exact (List.pairwise_lt_range 101).imp (fun h => by
      simp only [sentAtComparator, windowRow, if_true, decide_eq_true_eq]
      omega)
  have hasc : loadInitialMessages window101 "c" = window101.take 100 := by
    unfold loadInitialMessages queryCurrentMessages
    rw [hfilter, List.mergeSort_of_sorted hpair]
  rw [hasc]
  constructor
  · decide
  · decide

end Nexu
